import Mathlib

/-!
Verification of the jewelry catalog staging/creation pipeline
(`src/handlers/process-items.ts` and the items handler revisions).

The TypeScript source is shallowly embedded: pure helpers become Lean
functions; the DynamoDB counter and tables become explicit state passing;
the network (secrets store, AI chat endpoint, S3, AI file/batch endpoints)
becomes an `Env` of outcome oracles, and each handler additionally returns
the ordered list of external calls it attempted.  Machine numbers of the
source are modelled as `Nat`/`Int`; fallible steps return `Except`.

The repository file `process-items.ts` contains two concatenated revisions
of the handler.  Revision 1 (with batch mode, and the AI fallback field
named `metadata`) is embedded at top level; revision 2 (which assembles
`StagedItem` records and names the field `discovered_metadata`) is embedded
in the `Staged` namespace.
-/

/-- One uploaded image reference: `interface ImageInfo` of the source. -/
structure ImageInfo where
  s3Key : String
  index : Int
deriving DecidableEq

/-- One per-item group of images: `interface ItemGroup` of the source. -/
structure ItemGroup where
  item_index : Nat
  images : List ImageInfo
deriving DecidableEq

/-- Value estimate object of the source interfaces. -/
structure ValueEstimate where
  min_value : Int
  max_value : Int
  currency : String
deriving DecidableEq

/-- A JSON-like metadata value, enough for the metadata records the
handlers move around (caller metadata and AI discovered metadata). -/
inductive MVal where
  | nullV : MVal
  | num : Int → MVal
  | str : String → MVal
  | boolV : Bool → MVal
  | strList : List String → MVal
deriving DecidableEq

/-- A JavaScript object used as a string-keyed record, kept as the ordered
list of its property assignments; a later assignment for the same key
overrides an earlier one, as in the object spread operation. -/
abbrev MRecord := List (String × MVal)

/-- Property lookup on an `MRecord`: the value of the last assignment of
the key, mirroring JavaScript object semantics where later spread entries
override earlier ones. -/
def objLookup (l : MRecord) (key : String) : Option MVal :=
  (l.reverse.find? (fun p => p.1 == key)).map (fun p => p.2)

/-- Discovered metadata of the revision-1 AI response
(`metadata: { weight_grams: number | null; markings: string[] }`). -/
structure DiscoveredMetadata where
  weight_grams : Option Int
  markings : List String
deriving DecidableEq

/-- Revision-1 `interface OpenAIResponse`. -/
structure OpenAIResponse where
  title : String
  description : String
  value_estimate : ValueEstimate
  metadata : DiscoveredMetadata
deriving DecidableEq

/-- groupImages of the source: for itemNum in [0, numItems) it pushes
the group with `item_index = itemNum` and
`images = images.slice(itemNum*viewsPerItem, itemNum*viewsPerItem + viewsPerItem)`;
`slice(s, e)` on an in-range start is `take (e - s) (drop s ·)`. -/
def groupImages (images : List ImageInfo) (numItems viewsPerItem : Nat) : List ItemGroup :=
  (List.range numItems).map (fun itemNum =>
    { item_index := itemNum
      images := (images.drop (itemNum * viewsPerItem)).take viewsPerItem })

lemma groupImages_length (images : List ImageInfo) (n v : Nat) :
    (groupImages images n v).length = n := by
  simp [groupImages]

lemma groupImages_get? (images : List ImageInfo) (n v k : Nat) (hk : k < n) :
    (groupImages images n v).get? k =
      some { item_index := k, images := (images.drop (k * v)).take v } := by
  unfold groupImages
  rw [List.get?_map, List.get?_range hk]
  rfl

/-- The chunks produced by contiguous slicing reassemble to the input list
when the input length is exactly `n * v`. -/
lemma join_chunks {α : Type} :
    ∀ (n : Nat) (l : List α) (v : Nat), l.length = n * v →
      ((List.range n).map (fun k => (l.drop (k * v)).take v)).flatten = l := by
  intro n
  induction n with
  | zero =>
    intro l v h
    simp only [Nat.zero_mul, List.length_eq_zero] at h
    subst h
    simp
  | succ m ih =>
    intro l v h
    rw [List.range_succ_eq_map, List.map_cons, List.map_map, List.flatten_cons]
    have h2 : (fun k => (l.drop (k * v)).take v) ∘ Nat.succ
        = (fun k => (((l.drop v).drop (k * v)).take v)) := by
      funext k
      simp only [Function.comp, Nat.succ_eq_add_one]
      rw [List.drop_drop]
      congr 2
      ring
    rw [h2]
    have hlen : (l.drop v).length = m * v := by
      rw [List.length_drop, h]
      have : (m + 1) * v = m * v + v := by ring
      omega
    rw [ih (l.drop v) v hlen]
    simp only [Nat.zero_mul, List.drop_zero]
    exact List.take_append_drop v l

/-- Claim C3: for every `(numItems, viewsPerItem, images)` with
`images.length = numItems * viewsPerItem`, `groupImages` produces exactly
`numItems` groups, group `k` holds exactly the input images at positions
`[k * viewsPerItem, (k+1) * viewsPerItem)` in original order, and the
groups together cover every input image exactly once (their concatenation
is the input list). -/
theorem groupImages_exact_partition (images : List ImageInfo) (n v : Nat)
    (h : images.length = n * v) :
    (groupImages images n v).length = n ∧
    (∀ k : Nat, ∀ g : ItemGroup, (groupImages images n v).get? k = some g →
      g.item_index = k ∧ g.images = (images.drop (k * v)).take v) ∧
    ((groupImages images n v).map (fun g => g.images)).flatten = images := by
  refine ⟨groupImages_length images n v, ?_, ?_⟩
  · intro k g hg
    by_cases hk : k < n
    · rw [groupImages_get? images n v k hk] at hg
      cases hg
      exact ⟨rfl, rfl⟩
    · exfalso
      have : (groupImages images n v).get? k = none := by
        apply List.get?_eq_none.mpr
        rw [groupImages_length]
        omega
      rw [this] at hg
      cases hg
  · have : (groupImages images n v).map (fun g => g.images)
        = (List.range n).map (fun k => (images.drop (k * v)).take v) := by
      simp [groupImages, List.map_map, Function.comp]
    rw [this]
    exact join_chunks n images v h

/-- Witness for C3 at a concrete input: 4 images, 2 items, 2 views. -/
theorem groupImages_exact_partition_witness :
    (([⟨("a"), 0⟩, ⟨("b"), 1⟩, ⟨("c"), 2⟩, ⟨("d"), 3⟩] : List ImageInfo).length = 2 * 2) ∧
    ((groupImages [⟨("a"), 0⟩, ⟨("b"), 1⟩, ⟨("c"), 2⟩, ⟨("d"), 3⟩] 2 2).length = 2 ∧
    (∀ k : Nat, ∀ g : ItemGroup,
      (groupImages [⟨("a"), 0⟩, ⟨("b"), 1⟩, ⟨("c"), 2⟩, ⟨("d"), 3⟩] 2 2).get? k = some g →
      g.item_index = k ∧
      g.images = (([⟨("a"), 0⟩, ⟨("b"), 1⟩, ⟨("c"), 2⟩, ⟨("d"), 3⟩] : List ImageInfo).drop (k * 2)).take 2) ∧
    ((groupImages [⟨("a"), 0⟩, ⟨("b"), 1⟩, ⟨("c"), 2⟩, ⟨("d"), 3⟩] 2 2).map (fun g => g.images)).flatten
      = [⟨("a"), 0⟩, ⟨("b"), 1⟩, ⟨("c"), 2⟩, ⟨("d"), 3⟩]) :=
  ⟨by decide, groupImages_exact_partition _ 2 2 (by decide)⟩

/-- Claim C10: `groupImages` is total, with no validation of its own: for
every input list and every `numItems`, `viewsPerItem` (also on mismatched
lengths) it returns exactly `numItems` groups; group `k` carries
`item_index = k` (so indices ascend `0..numItems-1`) and the clamped slice
`take viewsPerItem (drop (k * viewsPerItem))`, which has at most
`viewsPerItem` images and is empty once the input is exhausted. -/
theorem groupImages_total (images : List ImageInfo) (n v : Nat) :
    (groupImages images n v).length = n ∧
    (∀ k : Nat, ∀ g : ItemGroup, (groupImages images n v).get? k = some g →
      g.item_index = k ∧
      g.images = (images.drop (k * v)).take v ∧
      g.images.length ≤ v ∧
      (images.length ≤ k * v → g.images = [])) := by
  refine ⟨groupImages_length images n v, ?_⟩
  intro k g hg
  by_cases hk : k < n
  · rw [groupImages_get? images n v k hk] at hg
    cases hg
    refine ⟨rfl, rfl, ?_, ?_⟩
    · simp
    · intro hle
      simp [List.drop_eq_nil_of_le hle]
  · exfalso
    have : (groupImages images n v).get? k = none := by
      apply List.get?_eq_none.mpr
      rw [groupImages_length]
      omega
    rw [this] at hg
    cases hg

/-- Witness for C10 at a mismatched input: 3 images, 2 items, 2 views
(the trailing group is short). -/
theorem groupImages_total_witness :
    (groupImages [⟨("a"), 0⟩, ⟨("b"), 1⟩, ⟨("c"), 2⟩] 2 2).length = 2 ∧
    (∀ k : Nat, ∀ g : ItemGroup,
      (groupImages [⟨("a"), 0⟩, ⟨("b"), 1⟩, ⟨("c"), 2⟩] 2 2).get? k = some g →
      g.item_index = k ∧
      g.images = (([⟨("a"), 0⟩, ⟨("b"), 1⟩, ⟨("c"), 2⟩] : List ImageInfo).drop (k * 2)).take 2 ∧
      g.images.length ≤ 2 ∧
      (([⟨("a"), 0⟩, ⟨("b"), 1⟩, ⟨("c"), 2⟩] : List ImageInfo).length ≤ k * 2 → g.images = [])) :=
  groupImages_total [⟨("a"), 0⟩, ⟨("b"), 1⟩, ⟨("c"), 2⟩] 2 2

/-- Outcome of the external AI chat-completion interaction as observed by
`generateItemDetails`: the steps that throw inside its `try` block
(fetch rejection, non-ok HTTP status, missing `choices[0].message.content`,
and `JSON.parse` failure on the fence-stripped content) or a successfully
parsed response object. -/
inductive AIOutcome (α : Type) where
  | networkError : AIOutcome α
  | httpError : Nat → String → AIOutcome α
  | missingContent : AIOutcome α
  | parseFailure : AIOutcome α
  | success : α → AIOutcome α
deriving DecidableEq

/-- True exactly when the outcome takes the `catch` path of the source. -/
def AIOutcome.isFailure {α : Type} : AIOutcome α → Bool
  | .success _ => false
  | _ => true

/-- The fixed disclaimer string `DISCLAIMER_PHRASE` of the source, built
from the same four concatenated pieces. -/
def DISCLAIMER_PHRASE : String :=
  "All photos represent the lot condition and may contain unseen imperfections in addition to " ++
  "the information provided. All items are described to the best of our abilities. Please " ++
  "communicate all questions and concerns prior to bidding. Please read our terms and " ++
  "conditions for more details. Good luck bidding."

/-- The fallback record returned from the `catch` block of revision-1
`generateItemDetails`. -/
def fallbackRecord : OpenAIResponse :=
  { title := "Untitled Item"
    description := "Failed to generate description."
    value_estimate := { min_value := 0, max_value := 0, currency := "USD" }
    metadata := { weight_grams := none, markings := [] } }

/-- Revision-1 `generateItemDetails`, as a function of the AI interaction
outcome: on success it returns the parsed result with the disclaimer
appended to the description; on any failure the `catch` block returns the
fixed fallback record (whose description is not touched). -/
def generateItemDetails (outcome : AIOutcome OpenAIResponse) : OpenAIResponse :=
  match outcome with
  | .success result =>
      { result with description := result.description ++ "\n\n" ++ DISCLAIMER_PHRASE }
  | _ => fallbackRecord

/-- On every outcome that takes the `catch` path, the returned record is
the fixed fallback. -/
lemma generateItemDetails_isFailure_eq (o : AIOutcome OpenAIResponse)
    (h : o.isFailure = true) :
    generateItemDetails o = fallbackRecord := by
  cases o with
  | networkError => rfl
  | httpError s t => rfl
  | missingContent => rfl
  | parseFailure => rfl
  | success r => simp [AIOutcome.isFailure] at h

set_option maxRecDepth 40000 in
/-- Claim C1 counterexample: on a failed external call the returned record
is the fallback, but its description is exactly the bare string of the
fallback and the disclaimer is NOT a suffix of it, refuting the part of the
claim that says the disclaimer is appended to the fallback description
too. -/
theorem generateItemDetails_fallback_no_disclaimer :
    generateItemDetails AIOutcome.networkError = fallbackRecord ∧
    (generateItemDetails AIOutcome.networkError).description
      = ("Failed to generate description.") ∧
    ¬ DISCLAIMER_PHRASE.data <:+ (generateItemDetails AIOutcome.networkError).description.data :=
  ⟨rfl, rfl, fun h => absurd h.length_le (by decide)⟩

/-- Claim C1 (amended): whenever the external AI call fails (network
error, non-success status, missing content, or parse failure), revision-1
`generateItemDetails` does not propagate the error but returns the fixed
fallback record — title Untitled Item, zero value estimate in USD, empty
discovered metadata, and the untouched description
"Failed to generate description."; the disclaimer is appended only on the
success path, not to the fallback. -/
theorem generateItemDetails_failure_fallback (o : AIOutcome OpenAIResponse)
    (h : o.isFailure = true) :
    generateItemDetails o = fallbackRecord :=
  generateItemDetails_isFailure_eq o h

/-- Witness for the amended C1 at the concrete outcome networkError. -/
theorem generateItemDetails_failure_fallback_witness :
    (AIOutcome.isFailure (AIOutcome.networkError : AIOutcome OpenAIResponse) = true) ∧
    generateItemDetails AIOutcome.networkError = fallbackRecord :=
  ⟨rfl, generateItemDetails_failure_fallback AIOutcome.networkError rfl⟩

/-- The fixed prompt string of the source (module-level `promptText`). -/
def promptText : String :=
  "You are an expert jewelry appraiser and marketer. Based on these images, provide the following details in JSON format:\n\n1. A concise title (maximum 60 characters) highlighting key features\n2. A marketing-friendly description of the piece in plaintext\n3. A value estimate considering materials, craftsmanship, condition, design complexity, and market trends\n4. Discovered metadata including:\n   - Weight in grams if a scale is visible in any image\n   - Any markings or stamps visible on the jewelry (e.g. 14K, 925, maker\x27s marks)\n\nRespond in this exact JSON format:\n\x7b\n    \"title\": \"<concise title>\",\n    \"description\": \"<marketing description>\",\n    \"value_estimate\": \x7b\n        \"min_value\": <number>,\n        \"max_value\": <number>,\n        \"currency\": \"USD\"\n    \x7d,\n    \"metadata\": \x7b\n        \"weight_grams\": <number or null if not visible>,\n        \"markings\": [\"<marking1>\", \"<marking2>\", ...] or [] if none visible\n    \x7d\n\x7d"

/-- Image URL construction of the source:
a template over the bucket name and the object key. -/
def imageUrl (bucket key : String) : String :=
  "https://" ++ bucket ++ ".s3.amazonaws.com/" ++ key

/-- Request body of `interface BatchRequest`, with the chat-completion
payload fields the source fills in. -/
structure BatchBody where
  model : String
  prompt : String
  imageUrls : List String
  max_tokens : Nat
deriving DecidableEq

/-- `interface BatchRequest` of the source. -/
structure BatchRequest where
  custom_id : String
  method : String
  url : String
  body : BatchBody
deriving DecidableEq

/-- One attempted external interaction, in program order. -/
inductive ExtCall where
  | secretFetch : ExtCall
  | aiChat : List String → ExtCall
  | s3Put : String → String → ExtCall
  | openaiFileUpload : String → ExtCall
  | openaiBatchCreate : String → ExtCall
deriving DecidableEq

/-- The environment of one handler invocation: configuration plus the
outcome each external service would give.  `enc` is the JSON serializer
applied to each batch request (`JSON.stringify`). -/
structure Env where
  bucket : String
  now : Nat
  secret : Except String String
  ai : List String → AIOutcome OpenAIResponse
  enc : BatchRequest → String
  s3PutResult : Except String Unit
  fileUploadResult : Except String String
  batchCreateResult : String → Except String (String × String)

/-- `getOpenAIKey` of the source: returns the cached key if present,
otherwise fetches the secret (one external call), caching it on success.
The result is (outcome, calls attempted, cache afterwards). -/
def getOpenAIKeyRun (env : Env) (cache : Option String) :
    (Except String String) × List ExtCall × Option String :=
  match cache with
  | some k => (Except.ok k, [], some k)
  | none =>
    match env.secret with
    | Except.error e => (Except.error e, [ExtCall.secretFetch], none)
    | Except.ok k => (Except.ok k, [ExtCall.secretFetch], some k)

/-- Revision-1 `generateItemDetails` with its effects: fetch the key
(before the try block, so a secret failure propagates), then attempt the
chat call; the response value is `generateItemDetails` of the outcome. -/
def generateItemDetailsRun (env : Env) (cache : Option String) (imageKeys : List String) :
    (Except String OpenAIResponse) × List ExtCall × Option String :=
  match getOpenAIKeyRun env cache with
  | (Except.error e, c, cache1) => (Except.error e, c, cache1)
  | (Except.ok _, c, cache1) =>
      (Except.ok (generateItemDetails (env.ai imageKeys)), c ++ [ExtCall.aiChat imageKeys], cache1)

/-- The sequential for-loop of the synchronous branch of revision-1
`handleStageItems`: one awaited enrichment per group, in order; a thrown
error aborts the loop. -/
def runSyncLoop (env : Env) : Option String → List ItemGroup →
    (Except String (List OpenAIResponse)) × List ExtCall × Option String
  | cache, [] => (Except.ok [], [], cache)
  | cache, g :: gs =>
    match generateItemDetailsRun env cache (g.images.map (fun i => i.s3Key)) with
    | (Except.error e, c, cache1) => (Except.error e, c, cache1)
    | (Except.ok d, c, cache1) =>
      match runSyncLoop env cache1 gs with
      | (Except.error e, c2, cache2) => (Except.error e, c ++ c2, cache2)
      | (Except.ok ds, c2, cache2) => (Except.ok (d :: ds), c ++ c2, cache2)

/-- The batch request list built by the batch branch of revision-1
`handleStageItems`: `groups.map((group, index) => ...)` with
`custom_id = item_<index>`. -/
def batchRequestsOf (env : Env) (groups : List ItemGroup) : List BatchRequest :=
  groups.enum.map (fun p =>
    { custom_id := "item_" ++ toString p.1
      method := "POST"
      url := "/v1/chat/completions"
      body :=
        { model := "gpt-4o-mini"
          prompt := promptText
          imageUrls := (p.2.images.map (fun i => i.s3Key)).map (fun key => imageUrl env.bucket key)
          max_tokens := 1000 } })

/-- `createBatchFile` of the source: key fetch, newline-join of the
serialized requests, S3 put of the single blob under
`batch_<Date.now()>.jsonl`, then registration of the blob with the AI
service as an input file, returning the file id. -/
def createBatchFileRun (env : Env) (cache : Option String) (requests : List BatchRequest) :
    (Except String String) × List ExtCall × Option String :=
  match getOpenAIKeyRun env cache with
  | (Except.error e, c, cache1) => (Except.error e, c, cache1)
  | (Except.ok _, c, cache1) =>
    let jsonlContent := String.intercalate ("\n") (requests.map env.enc)
    let fileKey := "batch_" ++ toString env.now ++ ".jsonl"
    match env.s3PutResult with
    | Except.error e => (Except.error e, c ++ [ExtCall.s3Put fileKey jsonlContent], cache1)
    | Except.ok _ =>
      match env.fileUploadResult with
      | Except.error e =>
          (Except.error e,
            c ++ [ExtCall.s3Put fileKey jsonlContent, ExtCall.openaiFileUpload fileKey], cache1)
      | Except.ok fid =>
          (Except.ok fid,
            c ++ [ExtCall.s3Put fileKey jsonlContent, ExtCall.openaiFileUpload fileKey], cache1)

/-- `createBatch` of the source: key fetch, then batch-job creation
referencing the input file id; returns the created (id, status). -/
def createBatchRun (env : Env) (cache : Option String) (inputFileId : String) :
    (Except String (String × String)) × List ExtCall × Option String :=
  match getOpenAIKeyRun env cache with
  | (Except.error e, c, cache1) => (Except.error e, c, cache1)
  | (Except.ok _, c, cache1) =>
    match env.batchCreateResult inputFileId with
    | Except.error e => (Except.error e, c ++ [ExtCall.openaiBatchCreate inputFileId], cache1)
    | Except.ok b => (Except.ok b, c ++ [ExtCall.openaiBatchCreate inputFileId], cache1)

/-- Parsed request body of revision-1 `handleStageItems`; absent fields
are `none` / defaults applied at destructuring (`metadata = {}`,
`use_batch = false`). -/
structure ProcessItemsRequest where
  num_items : Option Nat
  views_per_item : Option Nat
  images : Option (List ImageInfo)
  metadata : MRecord
  use_batch : Bool

/-- Response payload variants of revision-1 `handleStageItems`. -/
inductive StageBody where
  | error : String → StageBody
  | realtimeItems : List OpenAIResponse → StageBody
  | batchCreated : String → String → StageBody
deriving DecidableEq

/-- An HTTP-like result: status code plus body. -/
structure StageResult where
  statusCode : Nat
  body : StageBody
deriving DecidableEq

/-- Revision-1 `handleStageItems`: falsy-checks on images, num_items and
views_per_item, the count validation, grouping, then either the batch
branch (build requests, create the batch file, create the batch) or the
synchronous loop; each 4xx rejection happens before any external call. -/
def handleStageItems (env : Env) (cache : Option String) (req : ProcessItemsRequest) :
    StageResult × List ExtCall :=
  if (req.images.getD []).length = 0 then
    ({ statusCode := 400, body := StageBody.error ("No images provided.") }, [])
  else if req.num_items.getD 0 = 0 then
    ({ statusCode := 400, body := StageBody.error ("num_items is required.") }, [])
  else if req.views_per_item.getD 0 = 0 then
    ({ statusCode := 400, body := StageBody.error ("views_per_item is required.") }, [])
  else
    let images := req.images.getD []
    let num_items := req.num_items.getD 0
    let views_per_item := req.views_per_item.getD 0
    let expectedImages := num_items * views_per_item
    if images.length ≠ expectedImages then
      ({ statusCode := 400
         body := StageBody.error
           ("Expected " ++ toString expectedImages ++ " images (" ++ toString num_items ++
            " items × " ++ toString views_per_item ++ " views), but got " ++
            toString images.length ++ ".") }, [])
    else
      let groups := groupImages images num_items views_per_item
      if req.use_batch then
        let batchRequests := batchRequestsOf env groups
        match createBatchFileRun env cache batchRequests with
        | (Except.error _, c, _) =>
            ({ statusCode := 500, body := StageBody.error ("Failed to create batch") }, c)
        | (Except.ok inputFileId, c, cache1) =>
          match createBatchRun env cache1 inputFileId with
          | (Except.error _, c2, _) =>
              ({ statusCode := 500, body := StageBody.error ("Failed to create batch") }, c ++ c2)
          | (Except.ok b, c2, _) =>
              ({ statusCode := 200, body := StageBody.batchCreated b.1 b.2 }, c ++ c2)
      else
        match runSyncLoop env cache groups with
        | (Except.error _, c, _) =>
            ({ statusCode := 500, body := StageBody.error ("Failed to process items") }, c)
        | (Except.ok processedItems, c, _) =>
            ({ statusCode := 200, body := StageBody.realtimeItems processedItems }, c)

/-- Claim C5: a staging request with missing images, missing num_items,
missing views_per_item, or an image count different from
num_items * views_per_item is rejected with status 400 before any external
call: no credential fetch, no AI request, no file upload and no batch
creation are attempted. -/
theorem handleStageItems_invalid_rejected_no_calls (env : Env) (cache : Option String)
    (req : ProcessItemsRequest)
    (h : req.images = none ∨ req.num_items = none ∨ req.views_per_item = none ∨
         (req.images.getD []).length ≠ (req.num_items.getD 0) * (req.views_per_item.getD 0)) :
    (handleStageItems env cache req).1.statusCode = 400 ∧
    (handleStageItems env cache req).2 = [] := by
  by_cases h1 : (req.images.getD []).length = 0
  · simp [handleStageItems, h1]
  · by_cases h2 : req.num_items.getD 0 = 0
    · simp [handleStageItems, h1, h2]
    · by_cases h3 : req.views_per_item.getD 0 = 0
      · simp [handleStageItems, h1, h2, h3]
      · have h4 : (req.images.getD []).length ≠
            req.num_items.getD 0 * req.views_per_item.getD 0 := by
          rcases h with h | h | h | h
          · rw [h] at h1
            simp at h1
          · rw [h] at h2
            simp at h2
          · rw [h] at h3
            simp at h3
          · exact h
        simp [handleStageItems, h1, h2, h3, h4]

/-- A fixed concrete environment used by the witnesses: the secret store
answers, the AI chat endpoint always fails with a network error, and the
batch endpoints succeed. -/
def env0 : Env :=
  { bucket := "bkt"
    now := 0
    secret := Except.ok ("sk")
    ai := fun _ => AIOutcome.networkError
    enc := fun _ => "req"
    s3PutResult := Except.ok ()
    fileUploadResult := Except.ok ("file-1")
    batchCreateResult := fun _ => Except.ok ("batch-1", "validating") }

/-- A concrete invalid staging request: 1 image for 2 items of 1 view. -/
def reqMismatch : ProcessItemsRequest :=
  { num_items := some 2
    views_per_item := some 1
    images := some [⟨("a"), 0⟩]
    metadata := []
    use_batch := false }

/-- Witness for C5 at the concrete invalid request `reqMismatch`. -/
theorem handleStageItems_invalid_rejected_no_calls_witness :
    (reqMismatch.images = none ∨ reqMismatch.num_items = none ∨
     reqMismatch.views_per_item = none ∨
     (reqMismatch.images.getD []).length ≠
       (reqMismatch.num_items.getD 0) * (reqMismatch.views_per_item.getD 0)) ∧
    ((handleStageItems env0 none reqMismatch).1.statusCode = 400 ∧
     (handleStageItems env0 none reqMismatch).2 = []) :=
  ⟨Or.inr (Or.inr (Or.inr (by decide))),
   handleStageItems_invalid_rejected_no_calls env0 none reqMismatch
     (Or.inr (Or.inr (Or.inr (by decide))))⟩

/-- Total outage of the AI chat endpoint: every chat interaction fails. -/
def aiAllDown (env : Env) : Prop :=
  ∀ keys : List String, (env.ai keys).isFailure = true

/-- The secret is obtainable: either already cached, or the store will
answer. -/
def secretAvailable (env : Env) (cache : Option String) : Bool :=
  match cache, env.secret with
  | some _, _ => true
  | none, Except.ok _ => true
  | none, Except.error _ => false

lemma getOpenAIKeyRun_ok (env : Env) (cache : Option String)
    (h : secretAvailable env cache = true) :
    ∃ k c, getOpenAIKeyRun env cache = (Except.ok k, c, some k) := by
  cases cache with
  | some k => exact ⟨k, [], rfl⟩
  | none =>
    cases hs : env.secret with
    | ok k => exact ⟨k, [ExtCall.secretFetch], by simp [getOpenAIKeyRun, hs]⟩
    | error e => simp [secretAvailable, hs] at h

lemma map_const_replicate {α β : Type} (l : List α) (b : β) :
    l.map (fun _ => b) = List.replicate l.length b := by
  induction l with
  | nil => rfl
  | cons x xs ih => simp [List.replicate, ih]

lemma runSyncLoop_allFail (env : Env) (hai : aiAllDown env) :
    ∀ (groups : List ItemGroup) (cache : Option String),
      secretAvailable env cache = true →
      ∃ c cache2,
        runSyncLoop env cache groups
          = (Except.ok (groups.map (fun _ => fallbackRecord)), c, cache2) ∧
        secretAvailable env cache2 = true := by
  intro groups
  induction groups with
  | nil =>
    intro cache hsec
    exact ⟨[], cache, rfl, hsec⟩
  | cons g gs ih =>
    intro cache hsec
    obtain ⟨k, c0, hkey⟩ := getOpenAIKeyRun_ok env cache hsec
    have hsec2 : secretAvailable env (some k) = true := rfl
    obtain ⟨c1, cache2, hrest, hsec3⟩ := ih (some k) hsec2
    refine ⟨c0 ++ [ExtCall.aiChat (g.images.map (fun i => i.s3Key))] ++ c1, cache2, ?_, hsec3⟩
    have hfall : generateItemDetails (env.ai (g.images.map (fun i => i.s3Key)))
        = fallbackRecord :=
      generateItemDetails_isFailure_eq _ (hai _)
    simp [runSyncLoop, generateItemDetailsRun, hkey, hrest, hfall]

/-- Claim C4: a well-formed synchronous staging request returns status 200
with one item per group even under a total AI outage; every failed item is
the fallback record, so the response carries `num_items` copies of it. -/
theorem handleStageItems_sync_outage_200 (env : Env) (cache : Option String)
    (req : ProcessItemsRequest) (imgs : List ImageInfo) (n v : Nat)
    (hb : req.use_batch = false)
    (hi : req.images = some imgs) (hn : req.num_items = some n)
    (hv : req.views_per_item = some v)
    (hn0 : n ≠ 0) (hv0 : v ≠ 0) (hlen : imgs.length = n * v)
    (hsec : secretAvailable env cache = true)
    (hai : aiAllDown env) :
    (handleStageItems env cache req).1
      = { statusCode := 200
          body := StageBody.realtimeItems (List.replicate n fallbackRecord) } := by
  have hlen0 : imgs.length ≠ 0 := by
    rw [hlen]
    exact Nat.mul_ne_zero hn0 hv0
  obtain ⟨c, cache2, hloop, _⟩ :=
    runSyncLoop_allFail env hai (groupImages imgs n v) cache hsec
  rw [map_const_replicate, groupImages_length] at hloop
  simp [handleStageItems, hi, hn, hv, hlen0, hn0, hv0, hlen, hb, hloop]

/-- A concrete well-formed synchronous staging request: 2 items, 1 view. -/
def reqSync : ProcessItemsRequest :=
  { num_items := some 2
    views_per_item := some 1
    images := some [⟨("a"), 0⟩, ⟨("b"), 1⟩]
    metadata := []
    use_batch := false }

/-- Witness for C4: two items of one view each, AI endpoint down. -/
theorem handleStageItems_sync_outage_200_witness :
    (([⟨("a"), 0⟩, ⟨("b"), 1⟩] : List ImageInfo).length = 2 * 1) ∧
    secretAvailable env0 none = true ∧
    aiAllDown env0 ∧
    (handleStageItems env0 none reqSync).1
      = { statusCode := 200
          body := StageBody.realtimeItems (List.replicate 2 fallbackRecord) } :=
  ⟨rfl, rfl, fun _ => rfl,
   handleStageItems_sync_outage_200 env0 none reqSync [⟨("a"), 0⟩, ⟨("b"), 1⟩] 2 1
     rfl rfl rfl rfl (by decide) (by decide) rfl rfl (fun _ => rfl)⟩

lemma batchRequestsOf_length (env : Env) (groups : List ItemGroup) :
    (batchRequestsOf env groups).length = groups.length := by
  simp [batchRequestsOf]

lemma batchRequestsOf_custom_id (env : Env) (groups : List ItemGroup)
    (k : Nat) (r : BatchRequest) (hr : (batchRequestsOf env groups).get? k = some r) :
    r.custom_id = "item_" ++ toString k := by
  unfold batchRequestsOf at hr
  rw [List.get?_map] at hr
  have henum : (groups.enum.get? k) = (groups.get? k).map (fun a => (0 + k, a)) :=
    List.get?_enumFrom 0 groups k
  rw [henum] at hr
  cases hget : groups.get? k with
  | none =>
    rw [hget] at hr
    simp at hr
  | some g =>
    rw [hget] at hr
    cases hr
    simp

/-- Claim C7: a valid batch-mode staging request over groups `0..n-1`
produces exactly `n` request objects, the one at position `k` tagged
`custom_id = item_<k>`; the requests are serialized and newline-joined
into one single blob, which is stored and registered as an input file
before the batch job referencing that file id is created (the attempted
call trace is exactly S3 put, then file registration, then batch
creation). -/
theorem handleStageItems_batch_pipeline (env : Env) (key0 : String)
    (req : ProcessItemsRequest) (imgs : List ImageInfo) (n v : Nat) (fid bid bst : String)
    (hb : req.use_batch = true)
    (hi : req.images = some imgs) (hn : req.num_items = some n)
    (hv : req.views_per_item = some v)
    (hn0 : n ≠ 0) (hv0 : v ≠ 0) (hlen : imgs.length = n * v)
    (hs3 : env.s3PutResult = Except.ok ())
    (hup : env.fileUploadResult = Except.ok fid)
    (hbc : env.batchCreateResult fid = Except.ok (bid, bst)) :
    (batchRequestsOf env (groupImages imgs n v)).length = n ∧
    (∀ k : Nat, ∀ r : BatchRequest,
       (batchRequestsOf env (groupImages imgs n v)).get? k = some r →
       r.custom_id = "item_" ++ toString k) ∧
    handleStageItems env (some key0) req =
      ({ statusCode := 200, body := StageBody.batchCreated bid bst },
       [ExtCall.s3Put ("batch_" ++ toString env.now ++ ".jsonl")
          (String.intercalate ("\n") ((batchRequestsOf env (groupImages imgs n v)).map env.enc)),
        ExtCall.openaiFileUpload ("batch_" ++ toString env.now ++ ".jsonl"),
        ExtCall.openaiBatchCreate fid]) := by
  have hlen0 : imgs.length ≠ 0 := by
    rw [hlen]
    exact Nat.mul_ne_zero hn0 hv0
  refine ⟨?_, ?_, ?_⟩
  · rw [batchRequestsOf_length, groupImages_length]
  · intro k r hr
    exact batchRequestsOf_custom_id env _ k r hr
  · simp [handleStageItems, hi, hn, hv, hn0, hv0, hlen0, hlen, hb,
      createBatchFileRun, createBatchRun, getOpenAIKeyRun, hs3, hup, hbc]

/-- A concrete well-formed batch-mode staging request: 2 items, 1 view. -/
def reqBatch : ProcessItemsRequest :=
  { num_items := some 2
    views_per_item := some 1
    images := some [⟨("a"), 0⟩, ⟨("b"), 1⟩]
    metadata := []
    use_batch := true }

/-- Witness for C7 at the concrete request `reqBatch` under `env0`. -/
theorem handleStageItems_batch_pipeline_witness :
    (([⟨("a"), 0⟩, ⟨("b"), 1⟩] : List ImageInfo).length = 2 * 1) ∧
    env0.s3PutResult = Except.ok () ∧
    env0.fileUploadResult = Except.ok ("file-1") ∧
    env0.batchCreateResult ("file-1") = Except.ok ("batch-1", "validating") ∧
    ((batchRequestsOf env0 (groupImages [⟨("a"), 0⟩, ⟨("b"), 1⟩] 2 1)).length = 2 ∧
     (∀ k : Nat, ∀ r : BatchRequest,
        (batchRequestsOf env0 (groupImages [⟨("a"), 0⟩, ⟨("b"), 1⟩] 2 1)).get? k = some r →
        r.custom_id = "item_" ++ toString k) ∧
     handleStageItems env0 (some ("sk")) reqBatch =
       ({ statusCode := 200, body := StageBody.batchCreated ("batch-1") ("validating") },
        [ExtCall.s3Put ("batch_" ++ toString env0.now ++ ".jsonl")
           (String.intercalate ("\n")
             ((batchRequestsOf env0 (groupImages [⟨("a"), 0⟩, ⟨("b"), 1⟩] 2 1)).map env0.enc)),
         ExtCall.openaiFileUpload ("batch_" ++ toString env0.now ++ ".jsonl"),
         ExtCall.openaiBatchCreate ("file-1")])) :=
  ⟨rfl, rfl, rfl, rfl,
   handleStageItems_batch_pipeline env0 ("sk") reqBatch [⟨("a"), 0⟩, ⟨("b"), 1⟩] 2 1
     ("file-1") ("batch-1") ("validating")
     rfl rfl rfl rfl (by decide) (by decide) rfl rfl rfl rfl⟩

/-- `generateItemId` of the source over an explicit counter state: the
DynamoDB `ADD count 1` with `ReturnValues UPDATED_NEW` treats an absent
row as count 0, adds 1, and hands back the post-increment value; the
JavaScript `response.Attributes?.count || 1` coalesces a falsy count to 1.
Returns (value handed to the caller, counter state afterwards). -/
def generateItemId (counter : Option Nat) : Nat × Option Nat :=
  let newCount := counter.getD 0 + 1
  (if newCount = 0 then 1 else newCount, some newCount)

/-- `generateSequentialId` of the items-handler revision: the same atomic
add-and-return against the same counter row (its try/catch only rethrows). -/
def generateSequentialId (counter : Option Nat) : Nat × Option Nat :=
  generateItemId counter

/-- N successive allocator calls, threading the counter state. -/
def allocateN : Nat → Option Nat → List Nat × Option Nat
  | 0, c => ([], c)
  | n + 1, c =>
    let idc := generateItemId c
    let rest := allocateN n idc.2
    (idc.1 :: rest.1, rest.2)

lemma generateItemId_fst (c : Option Nat) : (generateItemId c).1 = c.getD 0 + 1 := by
  simp [generateItemId]

lemma allocateN_ids : ∀ (N : Nat) (c : Option Nat),
    (allocateN N c).1 = List.range' (c.getD 0 + 1) N := by
  intro N
  induction N with
  | zero => intro c; rfl
  | succ m ih =>
    intro c
    have h1 : (allocateN (m + 1) c).1
        = (c.getD 0 + 1) :: (allocateN m (some (c.getD 0 + 1))).1 := by
      simp [allocateN, generateItemId]
    rw [h1, ih (some (c.getD 0 + 1))]
    simp [List.range'_succ]

/-- Claim C2: each allocator call returns the post-increment value of the
counter (an absent row behaves as count 0, so the first allocation returns
1), and N successive calls starting from counter value `initial` return
exactly the identifiers `initial+1, ..., initial+N`: pairwise distinct and
equal to that set; `generateSequentialId` of the items handler is the same
allocator. -/
theorem generateItemId_sequential_ids (N : Nat) (counter : Option Nat) :
    (generateItemId counter).1 = counter.getD 0 + 1 ∧
    (generateItemId counter).2 = some (counter.getD 0 + 1) ∧
    generateSequentialId counter = generateItemId counter ∧
    (allocateN N counter).1 = List.range' (counter.getD 0 + 1) N ∧
    (allocateN N counter).1.Nodup ∧
    (∀ x : Nat, x ∈ (allocateN N counter).1 ↔
      counter.getD 0 + 1 ≤ x ∧ x ≤ counter.getD 0 + N) := by
  refine ⟨generateItemId_fst counter, by simp [generateItemId], rfl,
    allocateN_ids N counter, ?_, ?_⟩
  · rw [allocateN_ids N counter]
    exact List.nodup_range' _ _
  · intro x
    rw [allocateN_ids N counter]
    rw [List.mem_range'_1]
    omega

/-- `interface StagedItem` of the source. -/
structure StagedItem where
  item_index : Nat
  images : List String
  title : String
  description : String
  value_estimate : ValueEstimate
  metadata : MRecord
deriving DecidableEq

/-- `interface ItemData` of the source (the persisted catalog item row). -/
structure ItemData where
  item_id : Nat
  item_index : Nat
  metadata : MRecord
  images : List String
  title : String
  description : String
  value_estimate : ValueEstimate
  created_at : Nat
  updated_at : Nat
  created_by : String
  auction_id : Option String
deriving DecidableEq

/-- `interface ImageData` of the source (the persisted image row). -/
structure ImageData where
  image_id : String
  item_id : Nat
  s3_key_original : String
  created_at : Nat
  auction_id : Option String
deriving DecidableEq

/-- Parsed request body of `handleCreateItems`; `created_by` is falsy when
absent or the empty string. -/
structure CreateItemsRequest where
  items : Option (List StagedItem)
  auction_id : Option String
  created_by : Option String

/-- The durable stores touched by the creation handler: the counter row
and the two tables, each table as the list of its written rows. -/
structure DBState where
  counter : Option Nat
  itemsTable : List ItemData
  imagesTable : List ImageData
deriving DecidableEq

/-- Response payload variants of `handleCreateItems`. -/
inductive CreateBody where
  | error : String → CreateBody
  | createdItems : List ItemData → CreateBody
deriving DecidableEq

/-- An HTTP-like result of the creation handler. -/
structure CreateResult where
  statusCode : Nat
  body : CreateBody
deriving DecidableEq

/-- The truthiness normalization the source applies to `auction_id`
(`if (auction_id) itemData.auction_id = auction_id`). -/
def normAuction : Option String → Option String
  | none => none
  | some a => if a = "" then none else some a

/-- The catalog item row the source constructs for one staged item. -/
def mkItemRow (now : Nat) (created_by : String) (auction : Option String)
    (item : StagedItem) (itemId : Nat) : ItemData :=
  { item_id := itemId
    item_index := item.item_index
    metadata := item.metadata
    images := item.images
    title := item.title
    description := item.description
    value_estimate := item.value_estimate
    created_at := now
    updated_at := now
    created_by := created_by
    auction_id := auction }

/-- The per-image rows the source writes for one item
(`image_id = img_<now>_<random suffix>`); `rand` supplies the random
suffix of each successive draw, `d` counting draws so far. -/
def imageRecordsFor (rand : Nat → String) (now : Nat) (itemId : Nat)
    (auction : Option String) : List String → Nat → List ImageData × Nat
  | [], d => ([], d)
  | key :: rest, d =>
    let img : ImageData :=
      { image_id := "img_" ++ toString now ++ "_" ++ rand d
        item_id := itemId
        s3_key_original := key
        created_at := now
        auction_id := auction }
    let restOut := imageRecordsFor rand now itemId auction rest (d + 1)
    (img :: restOut.1, restOut.2)

/-- The creation loop of `handleCreateItems`: for each staged item, one
allocator call, one item-row put, then one image-row put per image.
Returns (createdItems, stores afterwards, draws used). -/
def createLoop (rand : Nat → String) (now : Nat) (created_by : String)
    (auction : Option String) : List StagedItem → DBState → Nat →
    List ItemData × DBState × Nat
  | [], st, d => ([], st, d)
  | item :: rest, st, d =>
    let idc := generateItemId st.counter
    let itemData := mkItemRow now created_by auction item idc.1
    let st1 : DBState :=
      { counter := idc.2
        itemsTable := st.itemsTable ++ [itemData]
        imagesTable := st.imagesTable }
    let imgs := imageRecordsFor rand now idc.1 auction item.images d
    let st2 : DBState := { st1 with imagesTable := st1.imagesTable ++ imgs.1 }
    let restOut := createLoop rand now created_by auction rest st2 imgs.2
    (itemData :: restOut.1, restOut.2)

/-- `handleCreateItems` of the source: items and created_by falsy checks,
then the creation loop, then a 201 with the created rows. -/
def handleCreateItems (rand : Nat → String) (now : Nat) (req : CreateItemsRequest)
    (st : DBState) : CreateResult × DBState :=
  if (req.items.getD []).length = 0 then
    ({ statusCode := 400, body := CreateBody.error ("No items provided.") }, st)
  else if req.created_by.getD ("") = "" then
    ({ statusCode := 400, body := CreateBody.error ("created_by is required.") }, st)
  else
    let out := createLoop rand now (req.created_by.getD ("")) (normAuction req.auction_id)
      (req.items.getD []) st 0
    ({ statusCode := 201, body := CreateBody.createdItems out.1 }, out.2.1)

lemma createLoop_cons (rand : Nat → String) (now : Nat) (cb : String)
    (auc : Option String) (item : StagedItem) (rest : List StagedItem)
    (st : DBState) (d : Nat) :
    createLoop rand now cb auc (item :: rest) st d
      = (mkItemRow now cb auc item (generateItemId st.counter).1 ::
          (createLoop rand now cb auc rest
            { counter := some (st.counter.getD 0 + 1)
              itemsTable := st.itemsTable ++
                [mkItemRow now cb auc item (generateItemId st.counter).1]
              imagesTable := st.imagesTable ++
                (imageRecordsFor rand now (generateItemId st.counter).1 auc item.images d).1 }
            (imageRecordsFor rand now (generateItemId st.counter).1 auc item.images d).2).1,
         (createLoop rand now cb auc rest
            { counter := some (st.counter.getD 0 + 1)
              itemsTable := st.itemsTable ++
                [mkItemRow now cb auc item (generateItemId st.counter).1]
              imagesTable := st.imagesTable ++
                (imageRecordsFor rand now (generateItemId st.counter).1 auc item.images d).1 }
            (imageRecordsFor rand now (generateItemId st.counter).1 auc item.images d).2).2) :=
  rfl

lemma createLoop_spec (rand : Nat → String) (now : Nat) (cb : String) (auc : Option String) :
    ∀ (items : List StagedItem) (st : DBState) (d : Nat),
      (createLoop rand now cb auc items st d).1.length = items.length ∧
      (createLoop rand now cb auc items st d).2.1.itemsTable
        = st.itemsTable ++ (createLoop rand now cb auc items st d).1 ∧
      (∀ k : Nat, ∀ item : StagedItem, items.get? k = some item →
        (createLoop rand now cb auc items st d).1.get? k
          = some (mkItemRow now cb auc item (st.counter.getD 0 + k + 1))) := by
  intro items
  induction items with
  | nil =>
    intro st d
    refine ⟨rfl, by simp [createLoop], ?_⟩
    intro k item h
    cases h
  | cons item rest ih =>
    intro st d
    rw [createLoop_cons]
    obtain ⟨ihlen, ihtab, ihget⟩ := ih
      { counter := some (st.counter.getD 0 + 1)
        itemsTable := st.itemsTable ++
          [mkItemRow now cb auc item (generateItemId st.counter).1]
        imagesTable := st.imagesTable ++
          (imageRecordsFor rand now (generateItemId st.counter).1 auc item.images d).1 }
      (imageRecordsFor rand now (generateItemId st.counter).1 auc item.images d).2
    refine ⟨by simp [ihlen], ?_, ?_⟩
    · rw [ihtab]
      simp
    · intro k it hk
      cases k with
      | zero =>
        cases hk
        simp [generateItemId_fst]
      | succ k2 =>
        have hrest := ihget k2 it hk
        rw [List.get?_cons_succ, hrest]
        have harith : st.counter.getD 0 + 1 + k2 + 1 = st.counter.getD 0 + (k2 + 1) + 1 := by
          omega
        simp [harith]

/-- Claim C6: for every staged item passed to the creation handler (on a
valid request), the persisted catalog row at the same position carries
exactly the same title, description, value_estimate and images, plus a
freshly allocated item_id (successive counter values), created_at and
updated_at equal to the request timestamp, and the caller supplied
created_by; the rows are appended to the items table and echoed in the
201 response. -/
theorem handleCreateItems_roundtrip (rand : Nat → String) (now : Nat)
    (req : CreateItemsRequest) (st : DBState) (items : List StagedItem) (cb : String)
    (hitems : req.items = some items) (hne : items ≠ [])
    (hcb : req.created_by = some cb) (hcbne : cb ≠ "") :
    ∃ rows : List ItemData,
      (handleCreateItems rand now req st).1.statusCode = 201 ∧
      (handleCreateItems rand now req st).1.body = CreateBody.createdItems rows ∧
      (handleCreateItems rand now req st).2.itemsTable = st.itemsTable ++ rows ∧
      rows.length = items.length ∧
      (∀ k : Nat, ∀ item : StagedItem, items.get? k = some item →
        ∃ row : ItemData, rows.get? k = some row ∧
          row.title = item.title ∧
          row.description = item.description ∧
          row.value_estimate = item.value_estimate ∧
          row.images = item.images ∧
          row.item_id = st.counter.getD 0 + k + 1 ∧
          row.created_at = now ∧
          row.updated_at = now ∧
          row.created_by = cb) := by
  have h1 : ¬((req.items.getD []).length = 0) := by
    rw [hitems]
    simpa [List.length_eq_zero] using hne
  have h2 : ¬(req.created_by.getD ("") = "") := by
    rw [hcb]
    simpa using hcbne
  obtain ⟨hlen, htab, hget⟩ :=
    createLoop_spec rand now cb (normAuction req.auction_id) items st 0
  refine ⟨(createLoop rand now cb (normAuction req.auction_id) items st 0).1, ?_, ?_, ?_, hlen, ?_⟩
  · simp [handleCreateItems, h1, h2]
  · simp [handleCreateItems, h1, h2, hitems, hcb, hne, hcbne]
  · simp only [handleCreateItems, h1, h2]
    simp [hitems, hcb, hne, hcbne, htab]
  · intro k item hk
    refine ⟨mkItemRow now cb (normAuction req.auction_id) item (st.counter.getD 0 + k + 1),
      hget k item hk, rfl, rfl, rfl, rfl, rfl, rfl, rfl, rfl⟩

/-- A concrete staged item used by the creation witnesses. -/
def item1 : StagedItem :=
  { item_index := 0
    images := ["k1"]
    title := "T"
    description := "D"
    value_estimate := { min_value := 1, max_value := 2, currency := "USD" }
    metadata := [] }

/-- The empty store state used by the creation witnesses. -/
def st0 : DBState :=
  { counter := none, itemsTable := [], imagesTable := [] }

/-- Witness for C6: one staged item, absent counter row, caller user. -/
theorem handleCreateItems_roundtrip_witness :
    (({ items := some [item1], auction_id := none,
        created_by := some ("user") } : CreateItemsRequest).items = some [item1]) ∧
    ([item1] ≠ ([] : List StagedItem)) ∧
    ("user" ≠ "") ∧
    (∃ rows : List ItemData,
      (handleCreateItems (fun _ => "r") 100
        { items := some [item1], auction_id := none, created_by := some ("user") } st0).1.statusCode
        = 201 ∧
      (handleCreateItems (fun _ => "r") 100
        { items := some [item1], auction_id := none, created_by := some ("user") } st0).1.body
        = CreateBody.createdItems rows ∧
      (handleCreateItems (fun _ => "r") 100
        { items := some [item1], auction_id := none, created_by := some ("user") } st0).2.itemsTable
        = st0.itemsTable ++ rows ∧
      rows.length = ([item1] : List StagedItem).length ∧
      (∀ k : Nat, ∀ item : StagedItem, ([item1] : List StagedItem).get? k = some item →
        ∃ row : ItemData, rows.get? k = some row ∧
          row.title = item.title ∧
          row.description = item.description ∧
          row.value_estimate = item.value_estimate ∧
          row.images = item.images ∧
          row.item_id = st0.counter.getD 0 + k + 1 ∧
          row.created_at = 100 ∧
          row.updated_at = 100 ∧
          row.created_by = "user")) :=
  ⟨rfl, by simp, by simp,
   handleCreateItems_roundtrip (fun _ => "r") 100
     { items := some [item1], auction_id := none, created_by := some ("user") } st0 [item1] ("user")
     rfl (by simp) rfl (by simp)⟩

/-- Claim C9: a creation request whose created_by is absent (or empty,
which the source treats as equally falsy) is rejected with status 400 and
leaves every store untouched: the counter row keeps its value (the
allocator is never reached) and no item or image row is written. -/
theorem handleCreateItems_missing_created_by (rand : Nat → String) (now : Nat)
    (req : CreateItemsRequest) (st : DBState)
    (h : req.created_by = none ∨ req.created_by = some ("")) :
    (handleCreateItems rand now req st).1.statusCode = 400 ∧
    (handleCreateItems rand now req st).2 = st := by
  have hcb : req.created_by.getD ("") = "" := by
    rcases h with h | h <;> rw [h] <;> rfl
  by_cases h1 : (req.items.getD []).length = 0
  · simp [handleCreateItems, h1]
  · simp [handleCreateItems, h1, hcb]

/-- Witness for C9: one staged item but no created_by. -/
theorem handleCreateItems_missing_created_by_witness :
    (({ items := some [item1], auction_id := none,
        created_by := none } : CreateItemsRequest).created_by = none ∨
     ({ items := some [item1], auction_id := none,
        created_by := none } : CreateItemsRequest).created_by = some ("")) ∧
    ((handleCreateItems (fun _ => "r") 100
        { items := some [item1], auction_id := none, created_by := none } st0).1.statusCode
       = 400 ∧
     (handleCreateItems (fun _ => "r") 100
        { items := some [item1], auction_id := none, created_by := none } st0).2 = st0) :=
  ⟨Or.inl rfl,
   handleCreateItems_missing_created_by (fun _ => "r") 100
     { items := some [item1], auction_id := none, created_by := none } st0 (Or.inl rfl)⟩

namespace Staged

/-- Revision-2 `interface OpenAIResponse`: the discovered fields live under
`discovered_metadata`, kept as the parsed JSON object (absent allowed,
guarded by `|| \x7b\x7d` at the use site). -/
structure OpenAIResponseD where
  title : String
  description : String
  value_estimate : ValueEstimate
  discovered_metadata : Option MRecord
deriving DecidableEq

/-- The fallback record of revision-2 `generateItemDetails`. -/
def fallbackRecord : OpenAIResponseD :=
  { title := "Untitled Item"
    description := "Failed to generate description."
    value_estimate := { min_value := 0, max_value := 0, currency := "USD" }
    discovered_metadata := some [("weight_grams", MVal.nullV), ("markings", MVal.strList [])] }

/-- Revision-2 `generateItemDetails` as a function of the AI interaction
outcome (disclaimer appended on success, fallback on any failure). -/
def generateItemDetails (outcome : AIOutcome OpenAIResponseD) : OpenAIResponseD :=
  match outcome with
  | AIOutcome.success result =>
      { result with description := result.description ++ "\n\n" ++ DISCLAIMER_PHRASE }
  | _ => fallbackRecord

/-- The staged item revision-2 `handleStageItems` builds for one group:
`metadata` is the object spread of the caller metadata followed by the
discovered metadata, so discovered entries come later in the assignment
order and override on key collision. -/
def stagedItemOf (metadata : MRecord) (group : ItemGroup)
    (itemDetails : OpenAIResponseD) : StagedItem :=
  { item_index := group.item_index
    images := group.images.map (fun i => i.s3Key)
    title := itemDetails.title
    description := itemDetails.description
    value_estimate := itemDetails.value_estimate
    metadata := metadata ++ itemDetails.discovered_metadata.getD [] }

/-- Response payload variants of revision-2 `handleStageItems`. -/
inductive StageBody where
  | error : String → StageBody
  | stagedList : List StagedItem → StageBody
deriving DecidableEq

/-- An HTTP-like result of revision-2 `handleStageItems`. -/
structure StageResult where
  statusCode : Nat
  body : StageBody
deriving DecidableEq

/-- Revision-2 `handleStageItems`: the same falsy and count validation,
then the sequential enrichment loop assembling one StagedItem per group;
a secret-store failure escapes to the top-level handler as a 500. -/
def handleStageItems (secret : Except String String)
    (ai : List String → AIOutcome OpenAIResponseD)
    (req : ProcessItemsRequest) : StageResult :=
  if (req.images.getD []).length = 0 then
    { statusCode := 400, body := StageBody.error ("No images provided.") }
  else if req.num_items.getD 0 = 0 then
    { statusCode := 400, body := StageBody.error ("num_items is required.") }
  else if req.views_per_item.getD 0 = 0 then
    { statusCode := 400, body := StageBody.error ("views_per_item is required.") }
  else
    let images := req.images.getD []
    let num_items := req.num_items.getD 0
    let views_per_item := req.views_per_item.getD 0
    if images.length ≠ num_items * views_per_item then
      { statusCode := 400
        body := StageBody.error
          ("Expected " ++ toString (num_items * views_per_item) ++ " images (" ++
           toString num_items ++ " items × " ++ toString views_per_item ++
           " views), but got " ++ toString images.length ++ ".") }
    else
      match secret with
      | Except.error _ =>
          { statusCode := 500, body := StageBody.error ("Internal server error") }
      | Except.ok _ =>
        let groups := groupImages images num_items views_per_item
        { statusCode := 200
          body := StageBody.stagedList (groups.map (fun g =>
            stagedItemOf req.metadata g
              (generateItemDetails (ai (g.images.map (fun i => i.s3Key)))))) }

end Staged

lemma objLookup_append (m d : MRecord) (key : String) :
    objLookup (m ++ d) key =
      match objLookup d key with
      | some v => some v
      | none => objLookup m key := by
  unfold objLookup
  rw [List.reverse_append, List.find?_append]
  cases hd : d.reverse.find? (fun p => p.1 == key) with
  | none => simp [Option.or]
  | some p => simp [Option.or]

/-- Claim C8: every staged item produced by the revision-2 synchronous
staging loop carries as metadata the object spread of the caller supplied
metadata followed by the AI discovered metadata, so that for every key the
looked-up value is the discovered one when present and the caller one
otherwise — discovered fields override caller metadata on overlapping
keys. -/
theorem handleStageItems_metadata_override (secret : Except String String) (s : String)
    (ai : List String → AIOutcome Staged.OpenAIResponseD)
    (req : ProcessItemsRequest) (imgs : List ImageInfo) (n v : Nat)
    (hi : req.images = some imgs) (hn : req.num_items = some n)
    (hv : req.views_per_item = some v)
    (hn0 : n ≠ 0) (hv0 : v ≠ 0) (hlen : imgs.length = n * v)
    (hsec : secret = Except.ok s) :
    Staged.handleStageItems secret ai req =
      { statusCode := 200
        body := Staged.StageBody.stagedList ((groupImages imgs n v).map (fun g =>
          Staged.stagedItemOf req.metadata g
            (Staged.generateItemDetails (ai (g.images.map (fun i => i.s3Key)))))) } ∧
    (∀ (cm : MRecord) (g : ItemGroup) (dtl : Staged.OpenAIResponseD) (key : String),
      objLookup (Staged.stagedItemOf cm g dtl).metadata key =
        match objLookup (dtl.discovered_metadata.getD []) key with
        | some w => some w
        | none => objLookup cm key) := by
  constructor
  · have hlen0 : imgs.length ≠ 0 := by
      rw [hlen]
      exact Nat.mul_ne_zero hn0 hv0
    simp [Staged.handleStageItems, hi, hn, hv, hn0, hv0, hlen0, hlen, hsec]
  · intro cm g dtl key
    exact objLookup_append cm (dtl.discovered_metadata.getD []) key

/-- A concrete revision-2 AI response whose discovered metadata collides
with the caller metadata on the key w. -/
def dtl0 : Staged.OpenAIResponseD :=
  { title := "Ring"
    description := "Nice"
    value_estimate := { min_value := 1, max_value := 2, currency := "USD" }
    discovered_metadata := some [("w", MVal.num 9)] }

/-- Witness for C8: caller metadata carries w = 2, the discovered
metadata carries w = 9, and the staged item looks up w = 9. -/
theorem handleStageItems_metadata_override_witness :
    (([⟨("a"), 0⟩] : List ImageInfo).length = 1 * 1) ∧
    ((Except.ok ("sk") : Except String String) = Except.ok ("sk")) ∧
    (Staged.handleStageItems (Except.ok ("sk")) (fun _ => AIOutcome.success dtl0)
        { num_items := some 1, views_per_item := some 1, images := some [⟨("a"), 0⟩],
          metadata := [("a", MVal.num 1), ("w", MVal.num 2)], use_batch := false } =
      { statusCode := 200
        body := Staged.StageBody.stagedList ((groupImages [⟨("a"), 0⟩] 1 1).map (fun g =>
          Staged.stagedItemOf [("a", MVal.num 1), ("w", MVal.num 2)] g
            (Staged.generateItemDetails
              ((fun _ => AIOutcome.success dtl0) (g.images.map (fun i => i.s3Key)))))) } ∧
     (∀ (cm : MRecord) (g : ItemGroup) (dtl : Staged.OpenAIResponseD) (key : String),
        objLookup (Staged.stagedItemOf cm g dtl).metadata key =
          match objLookup (dtl.discovered_metadata.getD []) key with
          | some w => some w
          | none => objLookup cm key)) ∧
    objLookup (Staged.stagedItemOf [("a", MVal.num 1), ("w", MVal.num 2)]
      { item_index := 0, images := [⟨("a"), 0⟩] } dtl0).metadata ("w") = some (MVal.num 9) :=
  ⟨rfl, rfl,
   handleStageItems_metadata_override (Except.ok ("sk")) ("sk")
     (fun _ => AIOutcome.success dtl0)
     { num_items := some 1, views_per_item := some 1, images := some [⟨("a"), 0⟩],
       metadata := [("a", MVal.num 1), ("w", MVal.num 2)], use_batch := false }
     [⟨("a"), 0⟩] 1 1 rfl rfl rfl (by decide) (by decide) rfl rfl,
   by decide⟩
